import Mathlib

/-!
Verification development for the image-comparison grading core
(`advancedGrading` module: similarity metrics, style classifier,
grading engine, feedback generator).

Modelling conventions:
* JavaScript numbers are modelled by exact arithmetic: the grading /
  classification layer (which uses only field operations and
  comparisons) is modelled over `ℚ`; the similarity metrics (which use
  `Math.sqrt` and fractional `Math.pow`) are modelled over `ℝ`.
* A separate model `JSNum` with explicit `NaN`/`±Infinity` values is
  used where IEEE special values are the point at issue (the skewness
  division inside the statistical structural similarity).
* `Array.prototype.reduce` with a `+` accumulator is modelled by
  `List.sum`; indexed access `b[i]` under an equal-length guard is
  modelled by `List.zipWith`.
* `Math.round` (round half toward +infinity) is modelled by
  `fun q => ⌊q + 1/2⌋`.
-/

/-- Drawing style labels, the four-way union type
`'cartoon' | 'sketch' | 'realistic' | 'abstract'` of the source. -/
inductive Style where
  | cartoon
  | sketch
  | realistic
  | abstract
deriving DecidableEq, Repr

/-- String name of a style, as it appears in feedback text. -/
def styleName : Style → String
  | .cartoon => "cartoon"
  | .sketch => "sketch"
  | .realistic => "realistic"
  | .abstract => "abstract"

/-- Grade thresholds of `GradingConfig.thresholds` (keys A+, A, B, C, D, F). -/
structure Thresholds where
  tAplus : ℚ
  tA : ℚ
  tB : ℚ
  tC : ℚ
  tD : ℚ
  tF : ℚ

/-- Style multipliers of `GradingConfig.styleAdjustments`. -/
structure StyleAdjustments where
  cartoon : ℚ
  sketch : ℚ
  realistic : ℚ
  abstract : ℚ

/-- The `GradingConfig` interface. -/
structure GradingConfig where
  thresholds : Thresholds
  styleAdjustments : StyleAdjustments

/-- The `defaultGradingConfig` constant. -/
def defaultGradingConfig : GradingConfig :=
  { thresholds := ⟨90, 80, 70, 60, 50, 0⟩
    styleAdjustments := ⟨1.05, 1.03, 1.0, 0.98⟩ }

/-- The three raw similarity values fed to the grading engine. -/
structure Similarities where
  cosineSimilarity : ℚ
  ssimScore : ℚ
  structuralSimilarity : ℚ

/-- A style classification result `{ style, confidence }`. -/
structure StyleResult where
  style : Style
  confidence : ℚ

/-- Result record `EnhancedComparisonResult` (heatmap URL omitted:
it is produced by an independent component). -/
structure EnhancedComparisonResult where
  similarity : ℤ
  ssimScore : ℤ
  grade : String
  color : String
  style : Style
  styleConfidence : ℚ
  feedback : List String

/-- JavaScript `Math.round` on a finite number: round half toward
positive infinity. -/
def jsRound (q : ℚ) : ℤ := ⌊q + 1 / 2⌋

/-- Style-adjustment lookup `config.styleAdjustments[style.style]`. -/
def styleAdjustmentFor (config : GradingConfig) (s : Style) : ℚ :=
  match s with
  | .cartoon => config.styleAdjustments.cartoon
  | .sketch => config.styleAdjustments.sketch
  | .realistic => config.styleAdjustments.realistic
  | .abstract => config.styleAdjustments.abstract

/-- The `|| 1.0` fallback on the style-adjustment lookup: in JS a
looked-up value of `0` is falsy and is replaced by `1.0`. -/
def effectiveStyleAdjustment (config : GradingConfig) (s : Style) : ℚ :=
  if styleAdjustmentFor config s = 0 then 1 else styleAdjustmentFor config s

/-- The grade/color if-chain of `generateEnhancedGrade` (source lines
332-351): descending comparison against the thresholds, first
threshold met wins, F (`bg-red-600`) is the initializer/floor. -/
def determineGradeColor (config : GradingConfig) (percentage : ℚ) : String × String :=
  if percentage ≥ config.thresholds.tAplus then ("A+", "bg-green-600")
  else if percentage ≥ config.thresholds.tA then ("A", "bg-green-500")
  else if percentage ≥ config.thresholds.tB then ("B", "bg-yellow-500")
  else if percentage ≥ config.thresholds.tC then ("C", "bg-orange-500")
  else if percentage ≥ config.thresholds.tD then ("D", "bg-red-400")
  else ("F", "bg-red-600")

/-- Rank of a letter grade in the letter order F < D < C < B < A < A+. -/
def gradeRank (g : String) : ℕ :=
  if g = "A+" then 5
  else if g = "A" then 4
  else if g = "B" then 3
  else if g = "C" then 2
  else if g = "D" then 1
  else 0

/-- The overall-performance sentence of `generateAccurateFeedback`,
chosen by percentage band (source lines 380-392). -/
def overallSentence (percentage : ℚ) : String :=
  if percentage ≥ 85 then
    "Outstanding work! Your drawing is remarkably similar to the reference."
  else if percentage ≥ 70 then
    "Great job! Your drawing captures most key elements effectively."
  else if percentage ≥ 55 then
    "Good effort! You\x27ve captured some important similarities."
  else if percentage ≥ 40 then
    "Fair attempt. Focus on matching the main shapes and proportions."
  else if percentage ≥ 25 then
    "Keep practicing! Try to observe the reference more carefully."
  else
    "This appears quite different from the reference. Study the original more closely."

/-- Cosine-similarity-specific feedback sentences (source lines 395-399). -/
def cosineFeedback (c : ℚ) : List String :=
  if c < 0.3 then
    ["The overall content and subject matter differ significantly from the reference."]
  else if c < 0.6 then
    ["Some elements match the reference, but key features are missing or different."]
  else []

/-- SSIM-specific feedback sentences (source lines 401-405). -/
def ssimFeedback (s : ℚ) : List String :=
  if s < 0.4 then
    ["The visual structure and layout need significant improvement."]
  else if s < 0.7 then
    ["Good structural foundation, but details could be more accurate."]
  else []

/-- Structural-similarity-specific feedback sentence (source lines 407-409). -/
def structuralFeedback (s : ℚ) : List String :=
  if s < 0.4 then
    ["Focus on matching the basic proportions and spatial relationships."]
  else []

/-- The style-acknowledgement sentence, the template literal
`Nice (style) style execution.` of source line 413. -/
def styleSentence (s : Style) : String :=
  "Nice " ++ styleName s ++ " style execution."

/-- `generateAccurateFeedback`: sequential pushes modelled as list
concatenation in the same order (overall sentence, cosine block, SSIM
block, structural block, conditional style sentence). -/
def generateAccurateFeedback (similarities : Similarities) (style : StyleResult)
    (percentage : ℚ) : List String :=
  [overallSentence percentage]
    ++ cosineFeedback similarities.cosineSimilarity
    ++ ssimFeedback similarities.ssimScore
    ++ structuralFeedback similarities.structuralSimilarity
    ++ (if style.confidence > 0.7 then [styleSentence style.style] else [])

/-- `generateEnhancedGrade` (source lines 300-365): weighted
combination, percentage conversion, style adjustment with the `|| 1.0`
fallback, clamp to [0,100], grade mapping, rounding, feedback. -/
def generateEnhancedGrade (similarities : Similarities) (style : StyleResult)
    (config : GradingConfig) : EnhancedComparisonResult :=
  let combinedScore :=
    similarities.cosineSimilarity * 0.5
      + similarities.ssimScore * 0.35
      + similarities.structuralSimilarity * 0.15
  let rawPercentage := combinedScore * 100
  let adjusted := rawPercentage * effectiveStyleAdjustment config style.style
  let percentage := max 0 (min 100 adjusted)
  let gc := determineGradeColor config percentage
  { similarity := jsRound percentage
    ssimScore := jsRound (similarities.ssimScore * 100)
    grade := gc.1
    color := gc.2
    style := style.style
    styleConfidence := style.confidence
    feedback := generateAccurateFeedback similarities style percentage }

/-- `detectImageStyle` (source lines 276-297): four scalar statistics
of the feature vector, then a first-match decision chain with fixed
confidence constants. `Math.max(...features.map(abs))` is modelled by
a fold with initial value 0; absolute values are nonnegative, so this
agrees with the source for every nonempty vector. Divisions by a zero
length yield 0 here (JS yields NaN); every comparison involved is
false in both cases, so the empty vector classifies as `abstract` in
both models. -/
def detectImageStyle (features : List ℚ) : StyleResult :=
  let mean := features.sum / (features.length : ℚ)
  let variance := (features.map (fun val => (val - mean) ^ 2)).sum / (features.length : ℚ)
  let sparsity := ((features.filter (fun f => |f| < 0.001)).length : ℚ) / (features.length : ℚ)
  let complexity := ((features.filter (fun f => |f| > 0.05)).length : ℚ) / (features.length : ℚ)
  let maxActivation := (features.map (fun f => |f|)).foldr max 0
  if sparsity > 0.8 ∧ variance < 0.01 ∧ maxActivation < 0.1 then
    ⟨.sketch, 0.85⟩
  else if complexity < 0.2 ∧ variance > 0.05 ∧ maxActivation < 0.3 then
    ⟨.cartoon, 0.8⟩
  else if complexity > 0.5 ∧ variance > 0.1 ∧ maxActivation > 0.2 then
    ⟨.realistic, 0.9⟩
  else
    ⟨.abstract, 0.7⟩

/-- Helper: a rational clamped into `[0,100]` rounds (half up) to an
integer in `[0,100]`. -/
theorem jsRound_mem_of_bounds (q : ℚ) (h0 : 0 ≤ q) (h100 : q ≤ 100) :
    0 ≤ jsRound q ∧ jsRound q ≤ 100 := by
  constructor
  · exact Int.le_floor.mpr (by push_cast; linarith)
  · have h : jsRound q < 101 := Int.floor_lt.mpr (by push_cast; linarith)
    omega

/-- C2: for every similarity-score triple, style and config, the
grading engine combines the scores with weights 0.5/0.35/0.15,
converts to a percentage, applies the (falsy-guarded) style
adjustment, clamps into [0,100] and rounds; the reported percentage is
an integer in [0,100] whatever the sign or magnitude of the inputs. -/
theorem generateEnhancedGrade_percentage_int_bounds
    (similarities : Similarities) (style : StyleResult) (config : GradingConfig) :
    0 ≤ (generateEnhancedGrade similarities style config).similarity ∧
    (generateEnhancedGrade similarities style config).similarity ≤ 100 ∧
    (generateEnhancedGrade similarities style config).similarity =
      jsRound (max 0 (min 100
        ((0.5 * similarities.cosineSimilarity + 0.35 * similarities.ssimScore
          + 0.15 * similarities.structuralSimilarity) * 100
          * effectiveStyleAdjustment config style.style))) := by
  have hdef : (generateEnhancedGrade similarities style config).similarity =
      jsRound (max 0 (min 100
        ((similarities.cosineSimilarity * 0.5 + similarities.ssimScore * 0.35
          + similarities.structuralSimilarity * 0.15) * 100
          * effectiveStyleAdjustment config style.style))) := rfl
  have harg : (similarities.cosineSimilarity * 0.5 + similarities.ssimScore * 0.35
          + similarities.structuralSimilarity * 0.15) * 100
          * effectiveStyleAdjustment config style.style
      = (0.5 * similarities.cosineSimilarity + 0.35 * similarities.ssimScore
          + 0.15 * similarities.structuralSimilarity) * 100
          * effectiveStyleAdjustment config style.style := by ring
  rw [hdef, harg]
  have h0 : (0:ℚ) ≤ max 0 (min 100
        ((0.5 * similarities.cosineSimilarity + 0.35 * similarities.ssimScore
          + 0.15 * similarities.structuralSimilarity) * 100
          * effectiveStyleAdjustment config style.style)) := le_max_left _ _
  have h100 : max 0 (min 100
        ((0.5 * similarities.cosineSimilarity + 0.35 * similarities.ssimScore
          + 0.15 * similarities.structuralSimilarity) * 100
          * effectiveStyleAdjustment config style.style)) ≤ 100 :=
    max_le (by norm_num) (min_le_left _ _)
  exact ⟨(jsRound_mem_of_bounds _ h0 h100).1, (jsRound_mem_of_bounds _ h0 h100).2, rfl⟩

/-- C3: the grade-band mapping is monotone: a strictly larger
percentage never receives a strictly lower letter grade under the same
config. -/
theorem determineGrade_monotone (config : GradingConfig) (pA pB : ℚ) (h : pA > pB) :
    gradeRank (determineGradeColor config pB).1 ≤ gradeRank (determineGradeColor config pA).1 := by
  unfold determineGradeColor
  split_ifs <;> first | decide | linarith

/-- Witness for C3 at a concrete config and percentage pair. -/
theorem determineGrade_monotone_witness :
    (95:ℚ) > 50 ∧
      gradeRank (determineGradeColor defaultGradingConfig 50).1 ≤
        gradeRank (determineGradeColor defaultGradingConfig 95).1 :=
  ⟨by norm_num, determineGrade_monotone defaultGradingConfig 95 50 (by norm_num)⟩

/-- C8: with every threshold set to 0, every input receives grade
`A+`, because the clamped percentage is at least 0 and the A+
threshold is tested first. -/
theorem zero_thresholds_always_Aplus (similarities : Similarities) (style : StyleResult)
    (adj : StyleAdjustments) :
    (generateEnhancedGrade similarities style ⟨⟨0, 0, 0, 0, 0, 0⟩, adj⟩).grade = "A+" := by
  show (determineGradeColor _ _).1 = "A+"
  rw [determineGradeColor, if_pos (le_max_left _ _)]

noncomputable section

/-- Mean of a feature vector, `reduce((sum,val) => sum+val, 0) / length`.
Division by a zero length is the Lean convention `x / 0 = 0` (exact-real
model; the callers below only use it on vectors produced by the embedding
provider, and the claims never hinge on the empty vector). -/
def featMean (features : List ℝ) : ℝ := features.sum / (features.length : ℝ)

/-- Population variance of a feature vector (source, inside
`normalizeFeatures` and `calculateAccurateStructuralSimilarity`). -/
def featVariance (features : List ℝ) : ℝ :=
  (features.map (fun val => (val - featMean features) ^ 2)).sum / (features.length : ℝ)

/-- Standard deviation, `Math.sqrt` of the variance. -/
def featStd (features : List ℝ) : ℝ := Real.sqrt (featVariance features)

/-- The z-score normalization of `calculateAccurateCosineSimilarity`
(source lines 117-121): `std > 0 ? (val - mean) / std : 0`. -/
def normalizeFeatures (features : List ℝ) : List ℝ :=
  features.map (fun val =>
    if featStd features > 0 then (val - featMean features) / featStd features else 0)

/-- `calculateAccurateCosineSimilarity` (source lines 113-139): guard on
unequal lengths, z-score normalization, cosine of the normalized
vectors, `(x+1)/2` remap, squaring. -/
def calculateAccurateCosineSimilarity (a b : List ℝ) : ℝ :=
  if a.length ≠ b.length then 0
  else
    let normA := normalizeFeatures a
    let normB := normalizeFeatures b
    let dotProduct := (List.zipWith (fun x y => x * y) normA normB).sum
    let magnitudeA := Real.sqrt ((normA.map (fun val => val * val)).sum)
    let magnitudeB := Real.sqrt ((normB.map (fun val => val * val)).sum)
    if magnitudeA = 0 ∨ magnitudeB = 0 then 0
    else
      let similarity := dotProduct / (magnitudeA * magnitudeB)
      let normalizedSim := (similarity + 1) / 2
      normalizedSim ^ 2

/-- `calculateCorrelation` (source lines 251-273): Pearson correlation
clamped to be nonnegative, 0 when the denominator is 0. The indexed
for-loop over `i < x.length` reading `y[i]` is modelled by `zipWith`
(the only call site guards `x.length = y.length`). -/
def calculateCorrelation (x y : List ℝ) : ℝ :=
  let meanX := x.sum / (x.length : ℝ)
  let meanY := y.sum / (y.length : ℝ)
  let numerator := (List.zipWith (fun a b => (a - meanX) * (b - meanY)) x y).sum
  let sumXSquared := (x.map (fun a => (a - meanX) * (a - meanX))).sum
  let sumYSquared := (y.map (fun b => (b - meanY) * (b - meanY))).sum
  let denominator := Real.sqrt (sumXSquared * sumYSquared)
  if denominator = 0 then 0
  else max 0 (numerator / denominator)

/-- `calculateAccurateStructuralSimilarity` (source lines 222-248) in
the exact-real model: statistical moments, per-moment similarities,
correlation, weighted sum, squaring. `Math.pow(variance, 1.5)` is the
real power `variance ^ (1.5 : ℝ)`. In this model a division whose
denominator is 0 yields 0; the IEEE `NaN` behaviour of the skewness
term at zero variance is treated separately in the `JSNum` model
below. -/
def calculateAccurateStructuralSimilarity (features1 features2 : List ℝ) : ℝ :=
  if features1.length ≠ features2.length then 0
  else
    let mean1 := features1.sum / (features1.length : ℝ)
    let mean2 := features2.sum / (features2.length : ℝ)
    let variance1 := (features1.map (fun val => (val - mean1) ^ 2)).sum / (features1.length : ℝ)
    let variance2 := (features2.map (fun val => (val - mean2) ^ 2)).sum / (features2.length : ℝ)
    let skewness1 := (features1.map (fun val => (val - mean1) ^ 3)).sum
      / ((features1.length : ℝ) * variance1 ^ (1.5 : ℝ))
    let skewness2 := (features2.map (fun val => (val - mean2) ^ 3)).sum
      / ((features2.length : ℝ) * variance2 ^ (1.5 : ℝ))
    let meanSim := 1 / (1 + |mean1 - mean2| * 10)
    let varSim := 1 / (1 + |variance1 - variance2| * 100)
    let skewSim := 1 / (1 + |skewness1 - skewness2| * 5)
    let correlation := calculateCorrelation features1 features2
    let structuralSim := meanSim * 0.2 + varSim * 0.2 + skewSim * 0.2 + correlation * 0.4
    structuralSim ^ 2

/-- Grayscale conversion of a flat RGBA pixel array (source lines
176-181): every fourth-offset triple is combined with the luma weights;
the alpha byte is skipped. -/
def toGrayscale : List ℝ → List ℝ
  | r :: g :: b :: _ :: rest => (0.299 * r + 0.587 * g + 0.114 * b) :: toGrayscale rest
  | _ => []

/-- The single-window SSIM computation of `calculateAccurateSSIM`
(source lines 183-202) on two grayscale arrays: global means,
variances, covariance, and the SSIM formula with
`c1 = (0.01*255)^2`, `c2 = (0.03*255)^2`, returning 0 when the
denominator is not positive. -/
def ssimOf (gray1 gray2 : List ℝ) : ℝ :=
  let mean1 := gray1.sum / (gray1.length : ℝ)
  let mean2 := gray2.sum / (gray2.length : ℝ)
  let var1 := (gray1.map (fun val => (val - mean1) ^ 2)).sum / (gray1.length : ℝ)
  let var2 := (gray2.map (fun val => (val - mean2) ^ 2)).sum / (gray2.length : ℝ)
  let covar := (List.zipWith (fun v w => (v - mean1) * (w - mean2)) gray1 gray2).sum
    / (gray1.length : ℝ)
  let c1 := (0.01 * 255) ^ 2
  let c2 := (0.03 * 255) ^ 2
  let numerator := (2 * mean1 * mean2 + c1) * (2 * covar + c2)
  let denominator := (mean1 ^ 2 + mean2 ^ 2 + c1) * (var1 + var2 + c2)
  if denominator > 0 then numerator / denominator else 0

/-- `calculateAccurateSSIM` (source lines 142-219) at the level of
loaded pixel data: `none` stands for an image that failed to load or a
canvas context that could not be created, in which case the promise
resolves with the fail-soft value 0.1; otherwise both images are
converted to grayscale, the single-window SSIM is clamped into [0,1]
and sharpened with exponent 1.5. -/
def calculateAccurateSSIM (img1 img2 : Option (List ℝ)) : ℝ :=
  match img1, img2 with
  | some data1, some data2 =>
      (max 0 (min 1 (ssimOf (toGrayscale data1) (toGrayscale data2)))) ^ (1.5 : ℝ)
  | _, _ => 0.1

end

/-- C5: both the cosine similarity and the statistical structural
similarity return exactly 0 on feature vectors of unequal length. -/
theorem unequal_length_metrics_zero (a b : List ℝ) (h : a.length ≠ b.length) :
    calculateAccurateCosineSimilarity a b = 0 ∧
      calculateAccurateStructuralSimilarity a b = 0 := by
  constructor
  · unfold calculateAccurateCosineSimilarity
    rw [if_pos h]
  · unfold calculateAccurateStructuralSimilarity
    rw [if_pos h]

/-- Witness for C5 at concrete vectors of lengths 1 and 2. -/
theorem unequal_length_metrics_zero_witness :
    [(1:ℝ)].length ≠ [(1:ℝ), 2].length ∧
      calculateAccurateCosineSimilarity [(1:ℝ)] [1, 2] = 0 ∧
      calculateAccurateStructuralSimilarity [(1:ℝ)] [1, 2] = 0 := by
  have h : [(1:ℝ)].length ≠ [(1:ℝ), 2].length := by norm_num
  exact ⟨h, unequal_length_metrics_zero [1] [1, 2] h⟩

/-- C7: when either image fails to load or resample, the SSIM path
resolves with the fail-soft value 0.1 instead of raising. -/
theorem ssim_fail_soft_default :
    (∀ img : Option (List ℝ), calculateAccurateSSIM none img = 0.1) ∧
    (∀ img : Option (List ℝ), calculateAccurateSSIM img none = 0.1) := by
  constructor
  · intro img; cases img <;> rfl
  · intro img; cases img <;> rfl

/-- Helper: the single-window SSIM of a grayscale array against itself
is exactly 1 (the numerator and denominator coincide and are
positive because of the stabilizing constants). -/
theorem ssimOf_self (gray : List ℝ) : ssimOf gray gray = 1 := by
  have hS : 0 ≤ (gray.map (fun val => (val - gray.sum / (gray.length : ℝ)) ^ 2)).sum :=
    List.sum_nonneg (by
      intro x hx
      obtain ⟨v, _, rfl⟩ := List.mem_map.mp hx
      positivity)
  have hV : 0 ≤ (gray.map (fun val => (val - gray.sum / (gray.length : ℝ)) ^ 2)).sum
      / (gray.length : ℝ) :=
    div_nonneg hS (Nat.cast_nonneg _)
  simp only [ssimOf, List.zipWith_same]
  set m := gray.sum / (gray.length : ℝ) with hm
  set V := (gray.map (fun val => (val - m) ^ 2)).sum / (gray.length : ℝ) with hVdef
  have hcov : (gray.map (fun a => (a - m) * (a - m))).sum / (gray.length : ℝ) = V := by
    have hfun : (fun a : ℝ => (a - m) * (a - m)) = fun val : ℝ => (val - m) ^ 2 :=
      funext fun a => by ring
    rw [hVdef, hfun]
  rw [hcov]
  have hD : (0:ℝ) < (m ^ 2 + m ^ 2 + (0.01 * 255) ^ 2) * (V + V + (0.03 * 255) ^ 2) := by
    have h1 : (0:ℝ) < m ^ 2 + m ^ 2 + (0.01 * 255) ^ 2 := by positivity
    have h2 : (0:ℝ) < V + V + (0.03 * 255) ^ 2 := by nlinarith [hV]
    exact mul_pos h1 h2
  rw [if_pos hD, div_eq_one_iff_eq (ne_of_gt hD)]
  ring

/-- C6: comparing a grayscale array against a bit-identical copy of
itself, the single-window SSIM (before the power-law sharpening) is at
or above 0.99 — it is exactly 1. -/
theorem structural_identical_ge (gray : List ℝ) : (0.99 : ℝ) ≤ ssimOf gray gray := by
  rw [ssimOf_self]
  norm_num

/-- Helper: a sum of self-products is nonnegative. -/
theorem sum_mul_self_nonneg (l : List ℝ) : 0 ≤ (l.map (fun v => v * v)).sum :=
  List.sum_nonneg (by
    intro x hx
    obtain ⟨v, _, rfl⟩ := List.mem_map.mp hx
    exact mul_self_nonneg v)

/-- Helper: Cauchy-Schwarz for the truncating list dot product. -/
theorem dotList_sq_le (a : List ℝ) : ∀ b : List ℝ,
    ((List.zipWith (fun x y => x * y) a b).sum) ^ 2 ≤
      (a.map (fun v => v * v)).sum * (b.map (fun v => v * v)).sum := by
  induction a with
  | nil =>
    intro b
    simp
  | cons x xs ih =>
    intro b
    cases b with
    | nil =>
      simp
    | cons y ys =>
      have h := ih ys
      have hp : 0 ≤ (xs.map (fun v => v * v)).sum := sum_mul_self_nonneg xs
      have hq : 0 ≤ (ys.map (fun v => v * v)).sum := sum_mul_self_nonneg ys
      simp only [List.zipWith_cons_cons, List.map_cons, List.sum_cons]
      set d := (List.zipWith (fun x y => x * y) xs ys).sum with hd
      set p := (xs.map (fun v => v * v)).sum with hpd
      set q := (ys.map (fun v => v * v)).sum with hqd
      rcases eq_or_lt_of_le hp with hp0 | hp0
      · have hd0 : d = 0 := by nlinarith [h]
        rw [← hp0, hd0]
        nlinarith [mul_self_nonneg x, mul_self_nonneg y, mul_self_nonneg (x * y)]
      · nlinarith [h, sq_nonneg (x * d - p * y),
          mul_nonneg (add_nonneg hp (mul_self_nonneg x)) (sub_nonneg.mpr h)]

/-- Helper: the (remapped, squared) cosine similarity always lies in
[0,1], whatever the inputs. -/
theorem cosine_range (a b : List ℝ) :
    0 ≤ calculateAccurateCosineSimilarity a b ∧ calculateAccurateCosineSimilarity a b ≤ 1 := by
  unfold calculateAccurateCosineSimilarity
  by_cases hlen : a.length ≠ b.length
  · rw [if_pos hlen]; norm_num
  · rw [if_neg hlen]
    set normA := normalizeFeatures a with hA
    set normB := normalizeFeatures b with hB
    set d := (List.zipWith (fun x y => x * y) normA normB).sum with hdd
    set SA := (normA.map (fun v => v * v)).sum with hSA
    set SB := (normB.map (fun v => v * v)).sum with hSB
    by_cases hmag : Real.sqrt SA = 0 ∨ Real.sqrt SB = 0
    · rw [if_pos hmag]; norm_num
    · rw [if_neg hmag]
      push_neg at hmag
      have hSA0 : 0 ≤ SA := sum_mul_self_nonneg normA
      have hSB0 : 0 ≤ SB := sum_mul_self_nonneg normB
      have hA0 : 0 < Real.sqrt SA :=
        lt_of_le_of_ne (Real.sqrt_nonneg _) (Ne.symm hmag.1)
      have hB0 : 0 < Real.sqrt SB :=
        lt_of_le_of_ne (Real.sqrt_nonneg _) (Ne.symm hmag.2)
      have hprod : 0 < Real.sqrt SA * Real.sqrt SB := mul_pos hA0 hB0
      have hcs : d ^ 2 ≤ SA * SB := dotList_sq_le normA normB
      have habs : |d| ≤ Real.sqrt SA * Real.sqrt SB := by
        have h1 : |d| = Real.sqrt (d ^ 2) := (Real.sqrt_sq_eq_abs d).symm
        have h2 : Real.sqrt (d ^ 2) ≤ Real.sqrt (SA * SB) := Real.sqrt_le_sqrt hcs
        have h3 : Real.sqrt (SA * SB) = Real.sqrt SA * Real.sqrt SB := Real.sqrt_mul hSA0 _
        rw [h1, ← h3]
        exact h2
      have hsim : |d / (Real.sqrt SA * Real.sqrt SB)| ≤ 1 := by
        rw [abs_div, abs_of_pos hprod]
        exact (div_le_one hprod).mpr habs
      have hsim' := abs_le.mp hsim
      constructor
      · positivity
      · nlinarith [hsim'.1, hsim'.2]

/-- Helper: a vector with nonzero variance has cosine similarity
exactly 1 with itself: its z-scores have positive magnitude, the
normalized dot product is 1, and `((1+1)/2)^2 = 1`. -/
theorem cosine_self (a : List ℝ) (h : featVariance a ≠ 0) :
    calculateAccurateCosineSimilarity a a = 1 := by
  have hSraw : 0 ≤ (a.map (fun val => (val - featMean a) ^ 2)).sum :=
    List.sum_nonneg (by
      intro x hx
      obtain ⟨v, _, rfl⟩ := List.mem_map.mp hx
      positivity)
  have hvar_nonneg : 0 ≤ featVariance a := div_nonneg hSraw (Nat.cast_nonneg _)
  have hvar_pos : 0 < featVariance a := lt_of_le_of_ne hvar_nonneg (Ne.symm h)
  have hstd : 0 < featStd a := Real.sqrt_pos.mpr hvar_pos
  have hSraw_pos : 0 < (a.map (fun val => (val - featMean a) ^ 2)).sum := by
    rcases eq_or_lt_of_le hSraw with h0 | h0
    · exfalso
      apply h
      unfold featVariance
      rw [← h0]
      simp
    · exact h0
  have hnorm : normalizeFeatures a =
      a.map (fun val => (val - featMean a) / featStd a) := by
    unfold normalizeFeatures
    simp only [if_pos hstd]
  have hstd_sq : featStd a * featStd a = featVariance a :=
    Real.mul_self_sqrt hvar_nonneg
  have hS : ((normalizeFeatures a).map (fun v => v * v)).sum =
      (a.map (fun val => (val - featMean a) ^ 2)).sum / featVariance a := by
    rw [hnorm, List.map_map]
    have hfun : ((fun v : ℝ => v * v) ∘ fun val : ℝ => (val - featMean a) / featStd a) =
        fun val : ℝ => (val - featMean a) ^ 2 * (featStd a * featStd a)⁻¹ := by
      funext val
      simp only [Function.comp]
      field_simp
      ring
    rw [hfun, List.sum_map_mul_right, hstd_sq, div_eq_mul_inv]
  have hSpos : 0 < ((normalizeFeatures a).map (fun v => v * v)).sum := by
    rw [hS]
    exact div_pos hSraw_pos hvar_pos
  simp only [calculateAccurateCosineSimilarity, ne_eq, not_true_eq_false, if_false]
  set S := ((normalizeFeatures a).map (fun v => v * v)).sum with hSdef
  have hdot : (List.zipWith (fun x y => x * y) (normalizeFeatures a)
      (normalizeFeatures a)).sum = S := by
    rw [List.zipWith_same]
  rw [hdot]
  have hsqrt_pos : 0 < Real.sqrt S := Real.sqrt_pos.mpr hSpos
  rw [if_neg (by push_neg; exact ⟨ne_of_gt hsqrt_pos, ne_of_gt hsqrt_pos⟩)]
  rw [Real.mul_self_sqrt (le_of_lt hSpos), div_self (ne_of_gt hSpos)]
  norm_num

/-- C4: a feature vector with nonzero variance has cosine similarity
exactly 1 with itself, and the cosine similarity of any equal-length
pair lies in [0,1]. -/
theorem cosine_self_one_and_range :
    (∀ a : List ℝ, featVariance a ≠ 0 → calculateAccurateCosineSimilarity a a = 1) ∧
    (∀ a b : List ℝ, a.length = b.length →
      0 ≤ calculateAccurateCosineSimilarity a b ∧
        calculateAccurateCosineSimilarity a b ≤ 1) :=
  ⟨fun a h => cosine_self a h, fun a b _ => cosine_range a b⟩

/-- Witness for C4 at the concrete vectors `[0,1]` (variance 1/4) and
the pair `[0,1]`, `[2,5]`. -/
theorem cosine_self_one_and_range_witness :
    featVariance [(0:ℝ), 1] ≠ 0 ∧
      calculateAccurateCosineSimilarity [(0:ℝ), 1] [0, 1] = 1 ∧
      ([(0:ℝ), 1].length = [(2:ℝ), 5].length ∧
        0 ≤ calculateAccurateCosineSimilarity [(0:ℝ), 1] [2, 5] ∧
        calculateAccurateCosineSimilarity [(0:ℝ), 1] [2, 5] ≤ 1) := by
  have hv : featVariance [(0:ℝ), 1] ≠ 0 := by
    norm_num [featVariance, featMean]
  exact ⟨hv, cosine_self_one_and_range.1 [0, 1] hv,
    ⟨rfl, cosine_self_one_and_range.2 [0, 1] [2, 5] rfl⟩⟩

/-- Helper: the style sentence never coincides with an
overall-performance sentence. -/
theorem styleSentence_ne_overall (s : Style) (p : ℚ) : styleSentence s ≠ overallSentence p := by
  unfold overallSentence
  split_ifs <;> cases s <;> decide

/-- Helper: the style sentence never occurs in the cosine feedback block. -/
theorem styleSentence_not_mem_cosineFeedback (s : Style) (c : ℚ) :
    styleSentence s ∉ cosineFeedback c := by
  unfold cosineFeedback
  split_ifs <;> cases s <;> decide

/-- Helper: the style sentence never occurs in the SSIM feedback block. -/
theorem styleSentence_not_mem_ssimFeedback (s : Style) (c : ℚ) :
    styleSentence s ∉ ssimFeedback c := by
  unfold ssimFeedback
  split_ifs <;> cases s <;> decide

/-- Helper: the style sentence never occurs in the structural feedback block. -/
theorem styleSentence_not_mem_structuralFeedback (s : Style) (c : ℚ) :
    styleSentence s ∉ structuralFeedback c := by
  unfold structuralFeedback
  split_ifs <;> cases s <;> decide

/-- C9: the feedback list is never empty, starts with the
overall-performance sentence for the percentage band, contains the
style-acknowledgement sentence at most once, contains it exactly when
`style.confidence > 0.7`, and in that case it is the last element. -/
theorem feedback_shape (similarities : Similarities) (style : StyleResult) (percentage : ℚ) :
    generateAccurateFeedback similarities style percentage ≠ [] ∧
    (generateAccurateFeedback similarities style percentage).head? =
      some (overallSentence percentage) ∧
    (generateAccurateFeedback similarities style percentage).count
      (styleSentence style.style) ≤ 1 ∧
    (styleSentence style.style ∈ generateAccurateFeedback similarities style percentage ↔
      style.confidence > 0.7) ∧
    (style.confidence > 0.7 →
      (generateAccurateFeedback similarities style percentage).getLast? =
        some (styleSentence style.style)) := by
  have h1 : styleSentence style.style ∉ [overallSentence percentage] := by
    simp only [List.mem_singleton]
    exact styleSentence_ne_overall style.style percentage
  have h2 := styleSentence_not_mem_cosineFeedback style.style similarities.cosineSimilarity
  have h3 := styleSentence_not_mem_ssimFeedback style.style similarities.ssimScore
  have h4 := styleSentence_not_mem_structuralFeedback style.style
    similarities.structuralSimilarity
  have hne := styleSentence_ne_overall style.style percentage
  unfold generateAccurateFeedback
  by_cases hconf : style.confidence > 0.7
  · rw [if_pos hconf]
    refine ⟨by simp, by simp, ?_, ?_, ?_⟩
    · simp [List.count_cons, List.count_append, List.count_eq_zero.mpr h2,
        List.count_eq_zero.mpr h3, List.count_eq_zero.mpr h4, hne]
    · simp [List.mem_append, h1, h2, h3, h4, hconf]
    · intro _
      exact List.getLast?_concat _
  · rw [if_neg hconf]
    refine ⟨by simp, by simp, ?_, ?_, ?_⟩
    · simp [List.count_cons, List.count_append, List.count_eq_zero.mpr h2,
        List.count_eq_zero.mpr h3, List.count_eq_zero.mpr h4, hne]
    · simp [List.mem_append, h1, h2, h3, h4, hconf, hne]
    · intro hc
      exact absurd hc hconf

/-- C10: whenever the style classifier labels a feature vector
`abstract`, its confidence is the constant 0.7, which fails the strict
test `confidence > 0.7`, so the feedback never contains the
style-acknowledgement sentence. -/
theorem abstract_confidence_no_style_sentence (features : List ℚ)
    (similarities : Similarities) (percentage : ℚ)
    (h : (detectImageStyle features).style = Style.abstract) :
    (detectImageStyle features).confidence = 0.7 ∧
      styleSentence Style.abstract ∉
        generateAccurateFeedback similarities (detectImageStyle features) percentage := by
  have hconf : (detectImageStyle features).confidence = 0.7 := by
    simp only [detectImageStyle] at h ⊢
    split_ifs at h ⊢
    rfl
  refine ⟨hconf, ?_⟩
  unfold generateAccurateFeedback
  rw [hconf, if_neg (by norm_num)]
  simp [List.mem_append, List.mem_singleton, styleSentence_ne_overall,
    styleSentence_not_mem_cosineFeedback, styleSentence_not_mem_ssimFeedback,
    styleSentence_not_mem_structuralFeedback]

/-- Witness for C10 at the concrete feature vector `[1, 1]`, which
falls through every specific branch into the abstract default. -/
theorem abstract_confidence_no_style_sentence_witness :
    (detectImageStyle [(1:ℚ), 1]).style = Style.abstract ∧
      ((detectImageStyle [(1:ℚ), 1]).confidence = 0.7 ∧
        styleSentence Style.abstract ∉
          generateAccurateFeedback ⟨1, 1, 1⟩ (detectImageStyle [(1:ℚ), 1]) 50) := by
  have heval : detectImageStyle [(1:ℚ), 1] = ⟨Style.abstract, 0.7⟩ := by
    unfold detectImageStyle
    norm_num
  have h : (detectImageStyle [(1:ℚ), 1]).style = Style.abstract := by rw [heval]
  exact ⟨h, abstract_confidence_no_style_sentence [1, 1] ⟨1, 1, 1⟩ 50 h⟩

/-- JavaScript number values for the paths where IEEE-754 special
values matter: a finite value (arithmetic on finite values is modelled
exactly; the negative zero is collapsed onto `fin 0`), `NaN`, and the
two infinities. -/
inductive JSNum where
  | fin : ℝ → JSNum
  | nan : JSNum
  | inf : JSNum
  | ninf : JSNum

noncomputable section

/-- JavaScript unary minus. -/
def jneg : JSNum → JSNum
  | .fin a => .fin (-a)
  | .nan => .nan
  | .inf => .ninf
  | .ninf => .inf

/-- JavaScript `+` (ECMAScript: `NaN` absorbs; opposite infinities
give `NaN`). -/
def jadd : JSNum → JSNum → JSNum
  | .fin a, .fin b => .fin (a + b)
  | .fin _, .inf => .inf
  | .fin _, .ninf => .ninf
  | .fin _, .nan => .nan
  | .inf, .fin _ => .inf
  | .inf, .inf => .inf
  | .inf, .ninf => .nan
  | .inf, .nan => .nan
  | .ninf, .fin _ => .ninf
  | .ninf, .inf => .nan
  | .ninf, .ninf => .ninf
  | .ninf, .nan => .nan
  | .nan, _ => .nan

/-- JavaScript binary `-`. -/
def jsub (a b : JSNum) : JSNum := jadd a (jneg b)

/-- JavaScript `*` (ECMAScript: `NaN` absorbs; infinity times zero is
`NaN`, otherwise signs combine). -/
def jmul : JSNum → JSNum → JSNum
  | .fin a, .fin b => .fin (a * b)
  | .fin a, .inf => if a = 0 then .nan else if 0 < a then .inf else .ninf
  | .fin a, .ninf => if a = 0 then .nan else if 0 < a then .ninf else .inf
  | .fin _, .nan => .nan
  | .inf, .fin b => if b = 0 then .nan else if 0 < b then .inf else .ninf
  | .inf, .inf => .inf
  | .inf, .ninf => .ninf
  | .inf, .nan => .nan
  | .ninf, .fin b => if b = 0 then .nan else if 0 < b then .ninf else .inf
  | .ninf, .inf => .ninf
  | .ninf, .ninf => .inf
  | .ninf, .nan => .nan
  | .nan, _ => .nan

/-- JavaScript `/` (ECMAScript: `0/0` and `±inf/±inf` are `NaN`, a
nonzero finite numerator over zero gives a signed infinity — the
divisor zero here is `+0` since `-0` is collapsed — and a finite
numerator over an infinity gives zero). -/
def jdiv : JSNum → JSNum → JSNum
  | .fin a, .fin b =>
      if b = 0 then (if a = 0 then .nan else if 0 < a then .inf else .ninf)
      else .fin (a / b)
  | .fin _, .inf => .fin 0
  | .fin _, .ninf => .fin 0
  | .fin _, .nan => .nan
  | .inf, .fin b => if 0 ≤ b then .inf else .ninf
  | .inf, .inf => .nan
  | .inf, .ninf => .nan
  | .inf, .nan => .nan
  | .ninf, .fin b => if 0 ≤ b then .ninf else .inf
  | .ninf, .inf => .nan
  | .ninf, .ninf => .nan
  | .ninf, .nan => .nan
  | .nan, _ => .nan

/-- JavaScript `Math.abs`. -/
def jabs : JSNum → JSNum
  | .fin a => .fin |a|
  | .nan => .nan
  | .inf => .inf
  | .ninf => .inf

/-- JavaScript `Math.sqrt` (`NaN` on negative arguments). -/
def jsqrt : JSNum → JSNum
  | .fin a => if a < 0 then .nan else .fin (Real.sqrt a)
  | .nan => .nan
  | .inf => .inf
  | .ninf => .nan

/-- JavaScript `Math.pow(x, 1.5)` (`NaN` on negative finite bases,
`+inf` on either infinity since the exponent is positive and not an
odd integer). -/
def jpow15 : JSNum → JSNum
  | .fin a => if a < 0 then .nan else .fin (a ^ (1.5 : ℝ))
  | .nan => .nan
  | .inf => .inf
  | .ninf => .inf

/-- JavaScript `Math.pow(x, 3)`, written as a triple product. -/
def jpow3 (x : JSNum) : JSNum := jmul x (jmul x x)

/-- JavaScript `Math.max(0, x)` (`NaN` absorbs; `-inf` is capped at 0). -/
def jmax0 : JSNum → JSNum
  | .fin a => .fin (max 0 a)
  | .nan => .nan
  | .inf => .inf
  | .ninf => .fin 0

/-- The JavaScript strict comparison `x === 0` (`NaN === 0` and
`±inf === 0` are false). -/
def jisZero : JSNum → Bool
  | .fin a => decide (a = 0)
  | _ => false

/-- `reduce((sum, val) => sum + val, 0)` over JavaScript numbers. -/
def jsum (l : List JSNum) : JSNum := l.foldl jadd (.fin 0)

/-- `calculateCorrelation` (source lines 251-273) in the JavaScript
special-value model. -/
def correlationJS (x y : List JSNum) : JSNum :=
  let meanX := jdiv (jsum x) (.fin (x.length : ℝ))
  let meanY := jdiv (jsum y) (.fin (y.length : ℝ))
  let numerator := jsum (List.zipWith (fun a b => jmul (jsub a meanX) (jsub b meanY)) x y)
  let sumXSquared := jsum (x.map (fun a => jmul (jsub a meanX) (jsub a meanX)))
  let sumYSquared := jsum (y.map (fun b => jmul (jsub b meanY) (jsub b meanY)))
  let denominator := jsqrt (jmul sumXSquared sumYSquared)
  if jisZero denominator then .fin 0
  else jmax0 (jdiv numerator denominator)

/-- `calculateAccurateStructuralSimilarity` (source lines 222-248) in
the JavaScript special-value model: identical to the exact-real model
above except that every arithmetic operation follows the ECMAScript
rules for `NaN` and the infinities. The skewness denominator
`length * Math.pow(variance, 1.5)` is not guarded against zero
variance. -/
def structuralSimJS (features1 features2 : List JSNum) : JSNum :=
  if features1.length ≠ features2.length then .fin 0
  else
    let mean1 := jdiv (jsum features1) (.fin (features1.length : ℝ))
    let mean2 := jdiv (jsum features2) (.fin (features2.length : ℝ))
    let variance1 := jdiv (jsum (features1.map (fun val => jmul (jsub val mean1) (jsub val mean1))))
      (.fin (features1.length : ℝ))
    let variance2 := jdiv (jsum (features2.map (fun val => jmul (jsub val mean2) (jsub val mean2))))
      (.fin (features2.length : ℝ))
    let skewness1 := jdiv (jsum (features1.map (fun val => jpow3 (jsub val mean1))))
      (jmul (.fin (features1.length : ℝ)) (jpow15 variance1))
    let skewness2 := jdiv (jsum (features2.map (fun val => jpow3 (jsub val mean2))))
      (jmul (.fin (features2.length : ℝ)) (jpow15 variance2))
    let meanSim := jdiv (.fin 1) (jadd (.fin 1) (jmul (jabs (jsub mean1 mean2)) (.fin 10)))
    let varSim := jdiv (.fin 1) (jadd (.fin 1) (jmul (jabs (jsub variance1 variance2)) (.fin 100)))
    let skewSim := jdiv (.fin 1) (jadd (.fin 1) (jmul (jabs (jsub skewness1 skewness2)) (.fin 5)))
    let correlation := correlationJS features1 features2
    let structuralSim := jadd (jadd (jadd (jmul meanSim (.fin 0.2)) (jmul varSim (.fin 0.2)))
      (jmul skewSim (.fin 0.2))) (jmul correlation (.fin 0.4))
    jmul structuralSim structuralSim

end

/-- C1 (failing-input evaluation): on the feature vectors `[1,1]`
(variance 0) and `[0,2]`, the statistical structural similarity is
`NaN` — not a finite value in [0,1] — because the skewness of `[1,1]`
divides `0` by `2 * Math.pow(0, 1.5) = 0` and the resulting `NaN`
propagates through the weighted sum and the final squaring. -/
theorem statistical_similarity_nan_on_zero_variance :
    structuralSimJS [JSNum.fin 1, JSNum.fin 1] [JSNum.fin 0, JSNum.fin 2] = JSNum.nan := by
  norm_num [structuralSimJS, correlationJS, jsum, jadd, jsub, jneg, jmul, jdiv, jabs,
    jsqrt, jpow15, jpow3, jmax0, jisZero, Real.one_rpow, Real.zero_rpow, Real.sqrt_zero]

/-- Witness for C9 at a concrete input with confidence above 0.7: the
style sentence is the last feedback entry. -/
theorem feedback_shape_witness :
    (1:ℚ) > 0.7 ∧
      (generateAccurateFeedback ⟨1, 1, 1⟩ ⟨Style.cartoon, 1⟩ 90).getLast? =
        some (styleSentence Style.cartoon) :=
  ⟨by norm_num,
    (feedback_shape ⟨1, 1, 1⟩ ⟨Style.cartoon, 1⟩ 90).2.2.2.2 (by norm_num)⟩
